import Mathlib

/-
Verification of the structural query-identity mechanism in
src/diesel/src/query_builder/query_id.rs.

The Rust code is entirely type-level: the trait QueryId gives each
expression type an associated type (its shape descriptor), a boolean
constant HAS_STATIC_QUERY_ID (default true), and a function
query_id() returning Some(TypeId::of::<Self::QueryId>()) when the
constant is true and None otherwise.  We embed the universe of Rust
types as an inductive, a trait implementation as a structure holding
the two trait members, and each impl in the file as a function
producing such a structure.
-/

/-- A Rust type, as far as the query-id machinery observes it: the unit
type, a named base type (tables, columns, SQL types, database markers),
and type constructors of one or two arguments (Box, references,
QueryFragment, And, Bound). -/
inductive RustType : Type where
  | unit : RustType
  | base : String → RustType
  | app1 : String → RustType → RustType
  | app2 : String → RustType → RustType → RustType
deriving DecidableEq, Repr

/-- std::any::TypeId, an opaque equality-comparable token that is
globally unique per Rust type.  Modelled as the type itself, so that
TypeId.of is injective, matching the guarantee that distinct types have
distinct TypeIds. -/
abbrev TypeId := RustType

/-- TypeId::of::<T>(). -/
def TypeId.of (t : RustType) : TypeId := t

theorem TypeId.of_injective : Function.Injective TypeId.of :=
  fun _ _ h => h

/-- An implementation of the trait QueryId for some Self type: the
associated type QueryId (the shape descriptor) and the constant
HAS_STATIC_QUERY_ID, whose default in the trait declaration is true. -/
structure QueryId : Type where
  QueryId : RustType
  HAS_STATIC_QUERY_ID : Bool := true
deriving DecidableEq, Repr

/-- The provided method fn query_id() of the trait: if
Self::HAS_STATIC_QUERY_ID then Some(TypeId::of::<Self::QueryId>())
else None. -/
def query_id (i : QueryId) : Option TypeId :=
  if i.HAS_STATIC_QUERY_ID then some (TypeId.of i.QueryId) else none

/-- impl QueryId for (): type QueryId = (); HAS_STATIC_QUERY_ID = true. -/
def unit_impl : QueryId := QueryId.mk RustType.unit true

/-- impl of QueryId for Box of T where T: QueryId + ?Sized: forwards
both the associated type and the constant from T. -/
def Box_impl (t : QueryId) : QueryId :=
  QueryId.mk t.QueryId t.HAS_STATIC_QUERY_ID

/-- impl of QueryId for a shared reference to T where
T: QueryId + ?Sized: forwards both members from T. -/
def Ref_impl (t : QueryId) : QueryId :=
  QueryId.mk t.QueryId t.HAS_STATIC_QUERY_ID

/-- impl of QueryId for the trait object QueryFragment over DB:
type QueryId = (); HAS_STATIC_QUERY_ID = false, unconditionally in DB. -/
def QueryFragment_impl (db : RustType) : QueryId :=
  QueryId.mk RustType.unit false

/-- The derived impl for And over Left and Right, shown verbatim in the
source documentation of the trait: type QueryId is And of the two
constituent QueryId types, and HAS_STATIC_QUERY_ID is the conjunction
of the two constituent constants. -/
def And_impl (left right : QueryId) : QueryId :=
  QueryId.mk (RustType.app2 "And" left.QueryId right.QueryId)
    (left.HAS_STATIC_QUERY_ID && right.HAS_STATIC_QUERY_ID)

/-- Modelled from the spec: the impl of QueryId for Bound over a SQL
type and a Rust representation type is not under src; the source
documentation of the associated type states that Bound takes
type QueryId = Bound of SqlType::QueryId and unit, ignoring the Rust
representation type, and the spec states the descriptor and flag derive
only from the declared SQL type. -/
def Bound_impl (sqlType : QueryId) (rustType : RustType) : QueryId :=
  QueryId.mk (RustType.app2 "Bound" sqlType.QueryId RustType.unit)
    sqlType.HAS_STATIC_QUERY_ID

/-- A runtime expression value: its Rust type together with arbitrary
instance state (bound values, call history and the like), which the
identity machinery never inspects. -/
structure Value : Type where
  ty : RustType
  state : Nat
deriving DecidableEq, Repr

/-- The helper from the source tests, fn query_id generic in T: QueryId
taking an argument of type T and returning T::query_id(): it dispatches
on the type of the value and discards the value itself.  The impls
argument maps each Rust type to its trait implementation. -/
def value_query_id (impls : RustType → QueryId) (v : Value) : Option TypeId :=
  query_id (impls v.ty)

/-- C1: for every implementation of the identity capability, query_id
returns Some of the token derived from the shape descriptor when
HAS_STATIC_QUERY_ID is true, returns None when the flag is false, and
the None branch is independent of the descriptor. -/
theorem c1_query_id_guard (i : QueryId) :
    (i.HAS_STATIC_QUERY_ID = true →
      query_id i = some (TypeId.of i.QueryId)) ∧
    (i.HAS_STATIC_QUERY_ID = false → query_id i = none) ∧
    (i.HAS_STATIC_QUERY_ID = false →
      ∀ t : RustType, query_id i = query_id (QueryId.mk t false)) := by
  refine ⟨fun h => ?_, fun h => ?_, fun h t => ?_⟩ <;>
    simp [query_id, h]

/-- C1 witness: the guard evaluated at concrete implementations with the
flag true and false. -/
theorem c1_query_id_guard_witness :
    query_id (QueryId.mk RustType.unit true) = some (TypeId.of RustType.unit) ∧
    query_id (QueryId.mk (RustType.base "users") false) = none :=
  ⟨(c1_query_id_guard (QueryId.mk RustType.unit true)).1 rfl,
   (c1_query_id_guard (QueryId.mk (RustType.base "users") false)).2.1 rfl⟩

/-- C2: the derived composite And has a StaticFlag equal to the logical
AND of its constituents; in particular, if either constituent is
non-static the composite yields no identity key. -/
theorem c2_and_propagation (left right : QueryId) :
    (And_impl left right).HAS_STATIC_QUERY_ID =
      (left.HAS_STATIC_QUERY_ID && right.HAS_STATIC_QUERY_ID) ∧
    (left.HAS_STATIC_QUERY_ID = false ∨ right.HAS_STATIC_QUERY_ID = false →
      query_id (And_impl left right) = none) := by
  refine ⟨rfl, fun h => ?_⟩
  rcases h with h | h <;> simp [And_impl, query_id, h]

/-- C2 witness: a composite of the static unit expression with the
non-static trait object yields no identity key. -/
theorem c2_and_propagation_witness :
    query_id (And_impl unit_impl (QueryFragment_impl RustType.unit)) = none :=
  (c2_and_propagation unit_impl (QueryFragment_impl RustType.unit)).2 (Or.inr rfl)

/-- C3: the ownership wrapper Box and the borrowed-reference wrapper
both forward the shape descriptor and the StaticFlag unchanged, so the
wrapped identity key equals the unwrapped one. -/
theorem c3_wrapper_transparency (t : QueryId) :
    (Box_impl t).QueryId = t.QueryId ∧
    (Box_impl t).HAS_STATIC_QUERY_ID = t.HAS_STATIC_QUERY_ID ∧
    query_id (Box_impl t) = query_id t ∧
    (Ref_impl t).QueryId = t.QueryId ∧
    (Ref_impl t).HAS_STATIC_QUERY_ID = t.HAS_STATIC_QUERY_ID ∧
    query_id (Ref_impl t) = query_id t :=
  ⟨rfl, rfl, rfl, rfl, rfl, rfl⟩

/-- C4: the type-erased base form QueryFragment over any database DB has
StaticFlag false unconditionally, so its identity key is always None. -/
theorem c4_dynamic_opacity (db : RustType) :
    (QueryFragment_impl db).HAS_STATIC_QUERY_ID = false ∧
    query_id (QueryFragment_impl db) = none :=
  ⟨rfl, rfl⟩

/-- C5: the token is collision-free: two static implementations with
different shape descriptors yield different identity keys. -/
theorem c5_shape_discrimination (i j : QueryId)
    (hi : i.HAS_STATIC_QUERY_ID = true) (hj : j.HAS_STATIC_QUERY_ID = true)
    (hne : i.QueryId ≠ j.QueryId) :
    query_id i ≠ query_id j := by
  simpa [query_id, hi, hj, TypeId.of] using hne

/-- C5 witness: selecting the name column versus the id column of the
users table yields distinct identity keys. -/
theorem c5_shape_discrimination_witness :
    query_id (QueryId.mk (RustType.base "users::name") true) ≠
      query_id (QueryId.mk (RustType.base "users::id") true) :=
  c5_shape_discrimination (QueryId.mk (RustType.base "users::name") true)
    (QueryId.mk (RustType.base "users::id") true) rfl rfl (by decide)

/-- C6: the identity key of a value depends only on its type: two values
of the same concrete type yield equal keys regardless of instance
state, under any assignment of implementations to types. -/
theorem c6_shape_determinism (impls : RustType → QueryId) (v1 v2 : Value)
    (h : v1.ty = v2.ty) :
    value_query_id impls v1 = value_query_id impls v2 := by
  simp [value_query_id, h]

/-- C6 witness: two values of the same type with different instance
state share the identity key. -/
theorem c6_shape_determinism_witness :
    value_query_id (fun t => QueryId.mk t true) (Value.mk (RustType.base "users") 0) =
      value_query_id (fun t => QueryId.mk t true) (Value.mk (RustType.base "users") 1) :=
  c6_shape_determinism (fun t => QueryId.mk t true)
    (Value.mk (RustType.base "users") 0) (Value.mk (RustType.base "users") 1) rfl

/-- C7: a bound-parameter leaf keys only on its declared SQL type:
changing the host representation type of the bound value changes
neither the leaf key nor the key of a composite containing the leaf. -/
theorem c7_bound_param_collapsing (sqlType c : QueryId) (r1 r2 : RustType) :
    query_id (Bound_impl sqlType r1) = query_id (Bound_impl sqlType r2) ∧
    query_id (And_impl c (Bound_impl sqlType r1)) =
      query_id (And_impl c (Bound_impl sqlType r2)) :=
  ⟨rfl, rfl⟩

/-- C8: the unit expression has a fixed constant descriptor, StaticFlag
true, and is neutral under composition: pairing any implementation with
it leaves the composite StaticFlag equal to that implementation's. -/
theorem c8_unit_neutral (i : QueryId) :
    unit_impl.QueryId = RustType.unit ∧
    unit_impl.HAS_STATIC_QUERY_ID = true ∧
    (And_impl i unit_impl).HAS_STATIC_QUERY_ID = i.HAS_STATIC_QUERY_ID ∧
    (And_impl unit_impl i).HAS_STATIC_QUERY_ID = i.HAS_STATIC_QUERY_ID := by
  refine ⟨rfl, rfl, ?_, ?_⟩ <;> simp [And_impl, unit_impl]

/-- C9: the trait declares a default StaticFlag of true: an
implementation that only supplies the associated type has the flag true
and produces Some identity key. -/
theorem c9_default_static (t : RustType) :
    ({ QueryId := t } : QueryId).HAS_STATIC_QUERY_ID = true ∧
    query_id { QueryId := t } = some (TypeId.of t) :=
  ⟨rfl, rfl⟩

/-- C10: boxing the type-erased trait object propagates its false
StaticFlag through the Box, so the boxed dynamic query has identity key
None. -/
theorem c10_boxed_dynamic (db : RustType) :
    (Box_impl (QueryFragment_impl db)).HAS_STATIC_QUERY_ID = false ∧
    query_id (Box_impl (QueryFragment_impl db)) = none :=
  ⟨rfl, rfl⟩
